import Mathlib

/-
Verification of the WinGuitar chord-practice core against its specification.

The development shallowly embeds three parts of the code base:
  * guitar.py        : the GuitarState class (pressed frets / struck strings);
  * ChordVerifier.py : the verify / get_errors rule engine;
  * midi_handler.py  : the BLE-MIDI byte-buffer decoder (midi_callback).

Python machine behaviour is made explicit: list subscripts that can raise
IndexError are modelled with Except, attribute lookups that fail are
modelled as errors, and the Qt signal emissions of the decoder are
collected into an event list in emission order.
-/

/-- Equality of Except values is decidable once it is on both components;
needed so concrete runs of the embedded code can be settled by decide. -/
instance {ε α : Type} [DecidableEq ε] [DecidableEq α] : DecidableEq (Except ε α) :=
  fun a b =>
    match a, b with
    | Except.ok x, Except.ok y =>
      if h : x = y then isTrue (by rw [h]) else isFalse (fun he => h (Except.ok.inj he))
    | Except.error x, Except.error y =>
      if h : x = y then isTrue (by rw [h]) else isFalse (fun he => h (Except.error.inj he))
    | Except.ok _, Except.error _ => isFalse (fun he => Except.noConfusion he)
    | Except.error _, Except.ok _ => isFalse (fun he => Except.noConfusion he)

/-- Python list subscript `l[i]` for a non-negative index: returns the
element, or an IndexError when the index is out of range. -/
def pyGet {α : Type} (l : List α) (i : Nat) : Except String α :=
  match l.get? i with
  | some v => Except.ok v
  | none => Except.error "IndexError"

/-- State of guitar.py's GuitarState: one held fret per string and the fret
at which each string was last struck (0 meaning never / open). -/
structure GuitarState where
  pressed_frets : List Int
  strings_struck : List Int
deriving DecidableEq

/-- GuitarState.__init__: both arrays start as [0] * num_strings. -/
def GuitarState.init (num_strings : Nat) : GuitarState :=
  ⟨List.replicate num_strings 0, List.replicate num_strings 0⟩

/-- GuitarState.press_fret: guarded by 0 <= string < 6 and fret >= 0;
out-of-range inputs are silently ignored. -/
def GuitarState.press_fret (s : GuitarState) (string : Nat) (fret : Int) : GuitarState :=
  if string < 6 ∧ 0 ≤ fret then
    ⟨s.pressed_frets.set string fret, s.strings_struck⟩
  else s

/-- GuitarState.release_fret: same guard as press_fret; stores 0. -/
def GuitarState.release_fret (s : GuitarState) (string : Nat) (fret : Int) : GuitarState :=
  if string < 6 ∧ 0 ≤ fret then
    ⟨s.pressed_frets.set string 0, s.strings_struck⟩
  else s

/-- GuitarState.strike_string: guarded by 0 <= string < 6 only; records the
strike fret (which may be 0 or negative). -/
def GuitarState.strike_string (s : GuitarState) (string : Nat) (fret : Int) : GuitarState :=
  if string < 6 then
    ⟨s.pressed_frets, s.strings_struck.set string fret⟩
  else s

/-- GuitarState.release_string: the body is commented out in the source; the
method is a pass, i.e. the identity. -/
def GuitarState.release_string (s : GuitarState) (_string : Nat) : GuitarState := s

/-- GuitarState.is_string_struck: `self.strings_struck[string] > 0`. -/
def GuitarState.is_string_struck (s : GuitarState) (string : Nat) : Except String Bool :=
  (pyGet s.strings_struck string).map (fun v => decide (0 < v))

/-- GuitarState.get_fret_pressed: `self.pressed_frets[string]`. -/
def GuitarState.get_fret_pressed (s : GuitarState) (string : Nat) : Except String Int :=
  pyGet s.pressed_frets string

/-- GuitarState.clear_all (guitar.py lines 61-65).  After reassigning
`pressed_frets` and `strings_struck` it evaluates `self.struck_strings.clear()`.
No statement anywhere in the class ever assigns an attribute named
`struck_strings` (the constructor assigns only `pressed_frets` and
`strings_struck`, and no method introduces new attributes), so on every
instance the class API can produce, that attribute lookup raises
AttributeError before the method returns. -/
def GuitarState.clear_all (_s : GuitarState) : Except String GuitarState :=
  Except.error "AttributeError: GuitarState object has no attribute struck_strings"

/-- GuitarState defines no method named `clear_strings`, yet
guitar_fretboard_app.py line 423 invokes `self.guitar_state.clear_strings()`;
that attribute lookup raises AttributeError. -/
def GuitarState.clear_strings (_s : GuitarState) : Except String GuitarState :=
  Except.error "AttributeError: GuitarState object has no attribute clear_strings"

/-- The value returned by ChordVerifier.verify: Python returns the lone
boolean False on the empty-target early exit, and the two-element tuple
(frets_matched, strings_matched) otherwise. -/
inductive VerifyResult where
  | bool (b : Bool)
  | pair (frets_matched strings_matched : Bool)
deriving DecidableEq

/-- One iteration of the `for string_idx in range(6)` loop of
ChordVerifier.verify (ChordVerifier.py lines 58-78).  The guitar state is
read at index 5 - string_idx while the target arrays are read at
string_idx; the two accumulators are threaded through. -/
def ChordVerifier.verifyString (target_frets target_strings : List Int)
    (gs : GuitarState) (string_idx : Nat) (fm sm : Bool) :
    Except String (Bool × Bool) := do
  let pressed_fret ← gs.get_fret_pressed (5 - string_idx)
  let string_struck ← gs.is_string_struck (5 - string_idx)
  let t ← pyGet target_frets string_idx
  if t = -1 then
    -- muted string: should not be struck
    Except.ok (fm, if string_struck then false else sm)
  else if t = 0 then
    -- open string: struck exactly when listed in target_strings
    let sm := if (string_idx : Int) ∈ target_strings ∧ ¬ string_struck then false else sm
    let sm := if ¬ ((string_idx : Int) ∈ target_strings) ∧ string_struck then false else sm
    Except.ok (fm, sm)
  else
    -- fretted string: held fret must equal the target fret
    let fm := if pressed_fret ≠ t then false else fm
    let sm := if (string_idx : Int) ∈ target_strings ∧ ¬ string_struck then false else sm
    Except.ok (fm, sm)

/-- ChordVerifier.verify.  `if not target_frets: return False` is the early
exit (true both when the argument is None and when it is the empty list);
otherwise the six per-string steps run and the pair
(frets_matched, strings_matched) is returned. -/
def ChordVerifier.verify (target_frets : Option (List Int))
    (target_strings : List Int) (gs : GuitarState) : Except String VerifyResult :=
  let tf := target_frets.getD []
  if tf.isEmpty then Except.ok (VerifyResult.bool false)
  else do
    let r0 ← ChordVerifier.verifyString tf target_strings gs 0 true true
    let r1 ← ChordVerifier.verifyString tf target_strings gs 1 r0.1 r0.2
    let r2 ← ChordVerifier.verifyString tf target_strings gs 2 r1.1 r1.2
    let r3 ← ChordVerifier.verifyString tf target_strings gs 3 r2.1 r2.2
    let r4 ← ChordVerifier.verifyString tf target_strings gs 4 r3.1 r3.2
    let r5 ← ChordVerifier.verifyString tf target_strings gs 5 r4.1 r4.2
    Except.ok (VerifyResult.pair r5.1 r5.2)

/-- The diagnostics produced by ChordVerifier.get_errors, with the values
interpolated into the f-strings carried as fields. -/
inductive StringError where
  | should_be_struck_open (string : Nat)
  | should_not_be_struck (string : Nat)
  | should_be_struck (string : Nat)
  | wrong_fret (string : Nat) (expected got : Int)
deriving DecidableEq

/-- One iteration of the loop of ChordVerifier.get_errors
(ChordVerifier.py lines 97-112): the target array is read at 5 - t_index,
the pressed fret at t_index, and the struck flag at 5 - t_index. -/
def ChordVerifier.errorForString (target_frets : List Int) (gs : GuitarState)
    (t_index : Nat) : Except String (Option StringError) := do
  let target_fret ← pyGet target_frets (5 - t_index)
  let pressed_fret ← gs.get_fret_pressed t_index
  let struck ← gs.is_string_struck (5 - t_index)
  if target_fret = 0 then
    Except.ok (if ¬ struck then some (StringError.should_be_struck_open t_index) else none)
  else if target_fret = -1 then
    Except.ok (if struck then some (StringError.should_not_be_struck t_index) else none)
  else
    if ¬ struck then Except.ok (some (StringError.should_be_struck t_index))
    else if pressed_fret ≠ target_fret then
      Except.ok (some (StringError.wrong_fret t_index target_fret pressed_fret))
    else Except.ok none

/-- ChordVerifier.get_errors, on the target/state pair stored by the last
verify call.  The Python dict is keyed by t_index in increasing order with
at most one entry per string, so an association list in index order is an
exact model. -/
def ChordVerifier.get_errors (target_frets : Option (List Int))
    (gs : GuitarState) : Except String (List (Nat × StringError)) :=
  let tf := target_frets.getD []
  if tf.isEmpty then Except.ok []
  else do
    let e0 ← ChordVerifier.errorForString tf gs 0
    let e1 ← ChordVerifier.errorForString tf gs 1
    let e2 ← ChordVerifier.errorForString tf gs 2
    let e3 ← ChordVerifier.errorForString tf gs 3
    let e4 ← ChordVerifier.errorForString tf gs 4
    let e5 ← ChordVerifier.errorForString tf gs 5
    let cell : Nat → Option StringError → List (Nat × StringError) := fun i e =>
      match e with
      | some err => [(i, err)]
      | none => []
    Except.ok (cell 0 e0 ++ cell 1 e1 ++ cell 2 e2 ++ cell 3 e3 ++ cell 4 e4 ++ cell 5 e5)

/-- MIDIHandler.STANDARD_TUNING: open-string MIDI notes, low to high. -/
def STANDARD_TUNING : List Int := [40, 45, 50, 55, 59, 64]

/-- MIDIHandler.midi_to_fret_info: `midi_note - self.STANDARD_TUNING[string]`;
the table lookup raises IndexError when the string index exceeds 5. -/
def midi_to_fret_info (tuning : List Int) (string : Nat) (midi_note : Nat) :
    Except String Int :=
  (pyGet tuning string).map (fun openNote => (midi_note : Int) - openNote)

/-- The guitar events the decoder emits through Qt signals, in emission
order.  strike corresponds to midi_note_received.emit(5 - string, fret),
release to midi_note_released.emit(string), fretPress / fretRelease to
fret_pressed.emit / fret_released.emit(string, fret_number). -/
inductive GuitarEvent where
  | strike (string : Int) (fret : Int)
  | release (string : Int)
  | fretPress (string : Int) (fret : Int)
  | fretRelease (string : Int) (fret : Int)
deriving DecidableEq

/-- The scanning loop of midi_callback (midi_handler.py lines 114-161),
already positioned past the 2-byte header.  Each recognized 3-byte command
evaluates midi_to_fret_info before dispatching; when that tuning lookup
raises (string nibble beyond the table) the exception is caught by the
callback's enclosing handler, so scanning stops and the events emitted so
far stand.  The same early stop models the `break` taken when fewer data
bytes remain than the command needs. -/
def decodeLoop (tuning : List Int) : List Nat → List GuitarEvent
  | [] => []
  | midi_status :: rest =>
    let command := midi_status &&& 0xF0
    let string := midi_status &&& 0x0F
    if command = 0xF0 then
      -- system exclusive: skip one byte
      decodeLoop tuning rest
    else if command = 0x80 ∨ command = 0x90 ∨ command = 0xA0 ∨ command = 0xB0 then
      match rest with
      | note :: velocity :: rest2 =>
        match tuning.get? string with
        | none => []  -- IndexError inside midi_to_fret_info: caught, scan abandoned
        | some openNote =>
          let fret : Int := (note : Int) - openNote
          (if command = 0x90 then
            (if velocity > 0 then [GuitarEvent.strike (5 - (string : Int)) fret]
             else [GuitarEvent.release (string : Int)])
           else if command = 0x80 then [GuitarEvent.release (string : Int)]
           else if command = 0xB0 then
            (if note &&& 0x01 = 1 then [GuitarEvent.fretPress (string : Int) (velocity : Int)]
             else [GuitarEvent.fretRelease (string : Int) (velocity : Int)])
           else []) ++ decodeLoop tuning rest2
      | _ => []  -- i + 2 >= len(data): truncated 3-byte command, break
    else if command = 0xC0 ∨ command = 0xD0 then
      match rest with
      | _ :: rest2 => decodeLoop tuning rest2
      | [] => []  -- i + 1 >= len(data): truncated 2-byte command, break
    else
      -- unknown status: skip one byte
      decodeLoop tuning rest

/-- midi_callback (midi_handler.py lines 105-164): buffers shorter than 3
bytes yield nothing, otherwise the 2 header bytes are skipped and the scan
loop runs.  The function is total: every Python exception path is caught
inside the callback. -/
def midi_callback (tuning : List Int) (data : List Nat) : List GuitarEvent :=
  if data.length < 3 then [] else decodeLoop tuning (data.drop 2)

/-- True when the scan loop consumes the whole byte list without taking a
truncation break and without a tuning IndexError: decoding such a list
ends exactly at its end.  Mirrors the branch structure of decodeLoop. -/
def cleanScan (tuning : List Int) : List Nat → Bool
  | [] => true
  | midi_status :: rest =>
    let command := midi_status &&& 0xF0
    let string := midi_status &&& 0x0F
    if command = 0xF0 then
      cleanScan tuning rest
    else if command = 0x80 ∨ command = 0x90 ∨ command = 0xA0 ∨ command = 0xB0 then
      match rest with
      | _ :: _ :: rest2 => (tuning.get? string).isSome && cleanScan tuning rest2
      | _ => false
    else if command = 0xC0 ∨ command = 0xD0 then
      match rest with
      | _ :: rest2 => cleanScan tuning rest2
      | [] => false
    else
      cleanScan tuning rest

example : midi_callback STANDARD_TUNING [0, 0, 0x92, 60, 100] = [GuitarEvent.strike 3 10] := by decide
example : midi_callback STANDARD_TUNING [0, 0, 0x82, 60, 0] = [GuitarEvent.release 2] := by decide
example : midi_callback STANDARD_TUNING [0, 0, 0x92, 60, 0] = [GuitarEvent.release 2] := by decide
example : midi_callback STANDARD_TUNING [0, 0, 0xB3, 1, 7] = [GuitarEvent.fretPress 3 7] := by decide
example : midi_callback STANDARD_TUNING [0, 0, 0x92, 60, 100, 0x96, 60, 100, 0x92, 60, 100] = [GuitarEvent.strike 3 10] := by decide
example : ChordVerifier.verify (some [0, 2, 2, 1, 0, 0]) [0, 1, 2, 3, 4, 5]
    ⟨[0, 2, 2, 1, 0, 0], [1, 1, 1, 1, 1, 1]⟩ = Except.ok (VerifyResult.pair false true) := by decide
example : ChordVerifier.verify (some [0, 2, 2, 1, 0, 0]) [0, 1, 2, 3, 4, 5]
    ⟨[0, 0, 1, 2, 2, 0], [1, 1, 1, 1, 1, 1]⟩ = Except.ok (VerifyResult.pair true true) := by decide
example : ChordVerifier.get_errors (some [0, 2, 2, 1, 0, 0])
    ⟨[0, 2, 2, 0, 0, 0], [1, 1, 1, 1, 1, 1]⟩ =
    Except.ok [(2, StringError.wrong_fret 2 1 2), (3, StringError.wrong_fret 3 2 0),
      (4, StringError.wrong_fret 4 2 0)] := by decide

/-- C1 counterexample: with target [0,2,2,1,0,0], all six strings expected,
and a state whose pressed_fret array equals the target with every string
struck, verify returns (false, true), not the claimed (true, true): the
loop reads the guitar state at index 5 - string_idx, so the pressed frets
are compared against the reversed target. -/
theorem C1_counterexample :
    ChordVerifier.verify (some [0, 2, 2, 1, 0, 0]) [0, 1, 2, 3, 4, 5]
        ⟨[0, 2, 2, 1, 0, 0], [1, 1, 1, 1, 1, 1]⟩ =
      Except.ok (VerifyResult.pair false true) ∧
    VerifyResult.pair false true ≠ VerifyResult.pair true true := by
  decide

/-- C1 amended: same target and expected strings, but the state's
pressed_fret array must be the reverse [0,0,1,2,2,0] of the target; with
every string struck, verify then returns (true, true). -/
theorem C1_amended :
    ChordVerifier.verify (some [0, 2, 2, 1, 0, 0]) [0, 1, 2, 3, 4, 5]
        ⟨[0, 0, 1, 2, 2, 0], [1, 1, 1, 1, 1, 1]⟩ =
      Except.ok (VerifyResult.pair true true) := by
  decide

/-- C5: the claim describes the intended clear semantics, but the code
cannot deliver them: clear_all dereferences the never-assigned attribute
struck_strings and clear_strings is not defined on GuitarState, so both
calls raise AttributeError on any state, here the freshly constructed one. -/
theorem C5_clear_operations_raise :
    (GuitarState.init 6).clear_all =
      Except.error "AttributeError: GuitarState object has no attribute struck_strings" ∧
    (GuitarState.init 6).clear_strings =
      Except.error "AttributeError: GuitarState object has no attribute clear_strings" := by
  exact ⟨rfl, rfl⟩

/-- C7 counterexample: on an empty target fret list, verify returns the
lone Python boolean False, which is not the pair (false, false) the claim
names. -/
theorem C7_counterexample :
    ChordVerifier.verify (some []) [] (GuitarState.init 6) =
      Except.ok (VerifyResult.bool false) ∧
    VerifyResult.bool false ≠ VerifyResult.pair false false := by
  decide

/-- C7 amended: for every guitar state and every expected-string list, an
absent (None) or empty target fret list makes verify return the single
boolean False - an automatic non-match - without raising. -/
theorem C7_amended (gs : GuitarState) (target_strings : List Int) :
    ChordVerifier.verify none target_strings gs = Except.ok (VerifyResult.bool false) ∧
    ChordVerifier.verify (some []) target_strings gs =
      Except.ok (VerifyResult.bool false) :=
  ⟨rfl, rfl⟩

/-- C8 counterexample: after verifying target [0,2,2,1,0,0] against the
all-struck state with pressed_fret [0,2,2,0,0,0] (string 3 struck, fret 3
reading 0 instead of 1), get_errors maps string 3 to a wrong-fret
diagnostic expecting fret 2 - the target entry at index 5-3 - not the
claimed fret 1. -/
theorem C8_counterexample :
    ChordVerifier.get_errors (some [0, 2, 2, 1, 0, 0])
        ⟨[0, 2, 2, 0, 0, 0], [1, 1, 1, 1, 1, 1]⟩ =
      Except.ok [(2, StringError.wrong_fret 2 1 2), (3, StringError.wrong_fret 3 2 0),
        (4, StringError.wrong_fret 4 2 0)] ∧
    List.lookup 3 [(2, StringError.wrong_fret 2 1 2), (3, StringError.wrong_fret 3 2 0),
        (4, StringError.wrong_fret 4 2 0)] ≠ some (StringError.wrong_fret 3 1 0) := by
  decide

/-- C8 amended: on that target/state pair verify reports frets_matched =
false, and get_errors maps string index 3 to the diagnostic that fret 2
(the target entry read at index 5 - 3) was expected and 0 was found. -/
theorem C8_amended :
    ChordVerifier.verify (some [0, 2, 2, 1, 0, 0]) [0, 1, 2, 3, 4, 5]
        ⟨[0, 2, 2, 0, 0, 0], [1, 1, 1, 1, 1, 1]⟩ =
      Except.ok (VerifyResult.pair false true) ∧
    (ChordVerifier.get_errors (some [0, 2, 2, 1, 0, 0])
        ⟨[0, 2, 2, 0, 0, 0], [1, 1, 1, 1, 1, 1]⟩).map (List.lookup 3) =
      Except.ok (some (StringError.wrong_fret 3 2 0)) := by
  decide

/-- C9: striking any in-range string at fret 0 leaves is_string_struck
false on that string, because struckness is stored as the strike fret and
queried with a strict > 0 test: open-string strikes are invisible to the
public struck query. -/
theorem C9_open_strike_not_struck (gs : GuitarState) (s : Nat)
    (hs : s < 6) (hl : gs.strings_struck.length = 6) :
    (gs.strike_string s 0).is_string_struck s = Except.ok false := by
  have hlt : s < gs.strings_struck.length := by rw [hl]; exact hs
  simp [GuitarState.strike_string, hs, GuitarState.is_string_struck, pyGet,
    List.get?_eq_getElem?, List.getElem?_set_self, hlt, Except.map]

/-- Witness for C9 at the freshly constructed state and string 0. -/
theorem C9_witness :
    ((GuitarState.init 6).strike_string 0 0).is_string_struck 0 = Except.ok false :=
  C9_open_strike_not_struck (GuitarState.init 6) 0 (by decide) (by decide)

/-- C2 counterexample: decoding [0x00,0x00,0x92,60,100] yields a Strike on
string 3 at fret 10, not the claimed fret 5: the code subtracts the tuning
entry of the raw channel nibble (tuning[2] = 50), not of the reported
string 5 - 2 (tuning[3] = 55). -/
theorem C2_counterexample :
    midi_callback STANDARD_TUNING [0x00, 0x00, 0x92, 60, 100] =
      [GuitarEvent.strike 3 10] ∧
    [GuitarEvent.strike 3 (10 : Int)] ≠ [GuitarEvent.strike 3 5] := by
  decide

/-- C2 amended: for every Note-On status 0x90 or-ed with a channel nibble
c in 0..5 and velocity > 0, the decoder emits a Strike on string 5 - c
whose fret is the note minus the tuning entry of the raw nibble c (not of
the reported string); the example buffer therefore yields
Strike with string 3 and fret 60 - 50 = 10. -/
theorem C2_noteOn_fret_from_raw_nibble (c n v : Nat) (hc : c < 6) (hv : 0 < v) :
    midi_callback STANDARD_TUNING [0x00, 0x00, 0x90 ||| c, n, v] =
      [GuitarEvent.strike (5 - (c : Int)) ((n : Int) - STANDARD_TUNING.getD c 0)] := by
  have hcmd : (144 ||| c) &&& 240 = 144 := by interval_cases c <;> decide
  have hstr : (144 ||| c) &&& 15 = c := by interval_cases c <;> decide
  obtain ⟨t, hget, hgetD⟩ :
      ∃ t, STANDARD_TUNING[c]? = some t ∧ STANDARD_TUNING.getD c 0 = t := by
    interval_cases c <;> exact ⟨_, rfl, rfl⟩
  simp [midi_callback, decodeLoop, hcmd, hstr, hget, hgetD, hv]

/-- Witness for C2 at c = 2, n = 60, v = 100: the spec example buffer. -/
theorem C2_witness :
    midi_callback STANDARD_TUNING [0x00, 0x00, 0x90 ||| 2, 60, 100] =
      [GuitarEvent.strike (5 - (2 : Int)) ((60 : Int) - STANDARD_TUNING.getD 2 0)] :=
  C2_noteOn_fret_from_raw_nibble 2 60 100 (by decide) (by decide)

/-- C3 counterexample: a Note-Off on channel nibble 2 and a velocity-0
Note-On on the same nibble both decode to a Release for string 2, the raw
nibble, not the claimed inverted string 5 - 2 = 3: the high-to-low
inversion is applied only on the velocity-positive Note-On emission. -/
theorem C3_counterexample :
    midi_callback STANDARD_TUNING [0x00, 0x00, 0x82, 60, 0] = [GuitarEvent.release 2] ∧
    midi_callback STANDARD_TUNING [0x00, 0x00, 0x92, 60, 0] = [GuitarEvent.release 2] ∧
    [GuitarEvent.release (2 : Int)] ≠ [GuitarEvent.release 3] := by
  decide

/-- C3 amended: for every Note-Off status 0x80 or-ed with channel nibble c
in 0..5, and every Note-On on the same nibble with velocity 0, the decoder
emits a Release whose reported string is the raw nibble c - no 5 - c
inversion is applied on either release path. -/
theorem C3_release_string_not_inverted (c n v : Nat) (hc : c < 6) :
    midi_callback STANDARD_TUNING [0x00, 0x00, 0x80 ||| c, n, v] =
      [GuitarEvent.release (c : Int)] ∧
    midi_callback STANDARD_TUNING [0x00, 0x00, 0x90 ||| c, n, 0] =
      [GuitarEvent.release (c : Int)] := by
  have hcmd8 : (128 ||| c) &&& 240 = 128 := by interval_cases c <;> decide
  have hstr8 : (128 ||| c) &&& 15 = c := by interval_cases c <;> decide
  have hcmd9 : (144 ||| c) &&& 240 = 144 := by interval_cases c <;> decide
  have hstr9 : (144 ||| c) &&& 15 = c := by interval_cases c <;> decide
  obtain ⟨t, hget, hgetD⟩ :
      ∃ t, STANDARD_TUNING[c]? = some t ∧ STANDARD_TUNING.getD c 0 = t := by
    interval_cases c <;> exact ⟨_, rfl, rfl⟩
  constructor
  · simp [midi_callback, decodeLoop, hcmd8, hstr8, hget, hgetD]
  · simp [midi_callback, decodeLoop, hcmd9, hstr9, hget, hgetD]

/-- Witness for C3 at c = 2, n = 60, v = 0. -/
theorem C3_witness :
    midi_callback STANDARD_TUNING [0x00, 0x00, 0x80 ||| 2, 60, 0] =
      [GuitarEvent.release (2 : Int)] ∧
    midi_callback STANDARD_TUNING [0x00, 0x00, 0x90 ||| 2, 60, 0] =
      [GuitarEvent.release (2 : Int)] :=
  C3_release_string_not_inverted 2 60 0 (by decide)

/-- C4: the channel-direction asymmetry, both directions, for every
channel nibble c in 0..5: a Note-On with positive velocity reports string
5 - c, while a Control-Change reports string c with no inversion, the
least-significant bit of data1 selecting FretPress (1) over FretRelease
(0) and data2 giving the fret directly. -/
theorem C4_channel_direction_asymmetry (c : Nat) (hc : c < 6) :
    (∀ n v : Nat, 0 < v →
      midi_callback STANDARD_TUNING [0x00, 0x00, 0x90 ||| c, n, v] =
        [GuitarEvent.strike (5 - (c : Int)) ((n : Int) - STANDARD_TUNING.getD c 0)]) ∧
    (∀ d1 d2 : Nat,
      midi_callback STANDARD_TUNING [0x00, 0x00, 0xB0 ||| c, d1, d2] =
        (if d1 % 2 = 1 then [GuitarEvent.fretPress (c : Int) (d2 : Int)]
         else [GuitarEvent.fretRelease (c : Int) (d2 : Int)])) := by
  have hcmd9 : (144 ||| c) &&& 240 = 144 := by interval_cases c <;> decide
  have hstr9 : (144 ||| c) &&& 15 = c := by interval_cases c <;> decide
  have hcmdB : (176 ||| c) &&& 240 = 176 := by interval_cases c <;> decide
  have hstrB : (176 ||| c) &&& 15 = c := by interval_cases c <;> decide
  obtain ⟨t, hget, hgetD⟩ :
      ∃ t, STANDARD_TUNING[c]? = some t ∧ STANDARD_TUNING.getD c 0 = t := by
    interval_cases c <;> exact ⟨_, rfl, rfl⟩
  constructor
  · intro n v hv
    simp [midi_callback, decodeLoop, hcmd9, hstr9, hget, hgetD, hv]
  · intro d1 d2
    simp [midi_callback, decodeLoop, hcmdB, hstrB, hget, hgetD]

/-- Witness for C4 at c = 3: Note-On gives a Strike on string 2;
Control-Change with odd data1 gives a FretPress on string 3. -/
theorem C4_witness :
    midi_callback STANDARD_TUNING [0x00, 0x00, 0x90 ||| 3, 60, 100] =
      [GuitarEvent.strike (5 - (3 : Int)) ((60 : Int) - STANDARD_TUNING.getD 3 0)] ∧
    midi_callback STANDARD_TUNING [0x00, 0x00, 0xB0 ||| 3, 1, 7] =
      (if 1 % 2 = 1 then [GuitarEvent.fretPress (3 : Int) (7 : Int)]
       else [GuitarEvent.fretRelease (3 : Int) (7 : Int)]) :=
  ⟨(C4_channel_direction_asymmetry 3 (by decide)).1 60 100 (by decide),
   (C4_channel_direction_asymmetry 3 (by decide)).2 1 7⟩

/-- One-step unfolding of decodeLoop on a cons cell with the tail left
arbitrary; the generated equations specialise the nested match on the
tail, so this generic form is proved by cases on the tail shape. -/
theorem decodeLoop_cons (tuning : List Int) (midi_status : Nat) (rest : List Nat) :
    decodeLoop tuning (midi_status :: rest) =
      (if midi_status &&& 0xF0 = 0xF0 then
        decodeLoop tuning rest
      else if midi_status &&& 0xF0 = 0x80 ∨ midi_status &&& 0xF0 = 0x90 ∨
          midi_status &&& 0xF0 = 0xA0 ∨ midi_status &&& 0xF0 = 0xB0 then
        match rest with
        | note :: velocity :: rest2 =>
          match tuning.get? (midi_status &&& 0x0F) with
          | none => []
          | some openNote =>
            (if midi_status &&& 0xF0 = 0x90 then
              (if velocity > 0 then
                [GuitarEvent.strike (5 - (((midi_status &&& 0x0F) : Nat) : Int))
                  ((note : Int) - openNote)]
               else [GuitarEvent.release (((midi_status &&& 0x0F) : Nat) : Int)])
             else if midi_status &&& 0xF0 = 0x80 then
              [GuitarEvent.release (((midi_status &&& 0x0F) : Nat) : Int)]
             else if midi_status &&& 0xF0 = 0xB0 then
              (if note &&& 0x01 = 1 then
                [GuitarEvent.fretPress (((midi_status &&& 0x0F) : Nat) : Int) (velocity : Int)]
               else [GuitarEvent.fretRelease (((midi_status &&& 0x0F) : Nat) : Int) (velocity : Int)])
             else []) ++ decodeLoop tuning rest2
        | _ => []
      else if midi_status &&& 0xF0 = 0xC0 ∨ midi_status &&& 0xF0 = 0xD0 then
        match rest with
        | _ :: rest2 => decodeLoop tuning rest2
        | [] => []
      else
        decodeLoop tuning rest) := by
  cases rest with
  | nil => simp [decodeLoop]
  | cons d1 rest1 =>
    cases rest1 with
    | nil => simp [decodeLoop]
    | cons d2 rest2 => simp [decodeLoop]

/-- One-step unfolding of cleanScan on a cons cell, tail arbitrary. -/
theorem cleanScan_cons (tuning : List Int) (midi_status : Nat) (rest : List Nat) :
    cleanScan tuning (midi_status :: rest) =
      (if midi_status &&& 0xF0 = 0xF0 then
        cleanScan tuning rest
      else if midi_status &&& 0xF0 = 0x80 ∨ midi_status &&& 0xF0 = 0x90 ∨
          midi_status &&& 0xF0 = 0xA0 ∨ midi_status &&& 0xF0 = 0xB0 then
        match rest with
        | _ :: _ :: rest2 => (tuning.get? (midi_status &&& 0x0F)).isSome && cleanScan tuning rest2
        | _ => false
      else if midi_status &&& 0xF0 = 0xC0 ∨ midi_status &&& 0xF0 = 0xD0 then
        match rest with
        | _ :: rest2 => cleanScan tuning rest2
        | [] => false
      else
        cleanScan tuning rest) := by
  cases rest with
  | nil => simp [cleanScan]
  | cons d1 rest1 =>
    cases rest1 with
    | nil => simp [cleanScan]
    | cons d2 rest2 => simp [cleanScan]

/-- Decoding distributes over appending to a cleanly consumed prefix: the
scan walks the prefix message by message and then continues into the
suffix exactly as if it had been scanned alone. -/
theorem decodeLoop_append (tuning : List Int) :
    ∀ (xs ys : List Nat), cleanScan tuning xs = true →
      decodeLoop tuning (xs ++ ys) = decodeLoop tuning xs ++ decodeLoop tuning ys
  | [], ys, _ => by simp [decodeLoop]
  | b :: rest, ys, h => by
    by_cases hF : b &&& 0xF0 = 0xF0
    · have h' : cleanScan tuning rest = true := by simpa [cleanScan_cons, hF] using h
      have ih := decodeLoop_append tuning rest ys h'
      simp [decodeLoop_cons, hF, ih]
    · by_cases h3 : b &&& 0xF0 = 0x80 ∨ b &&& 0xF0 = 0x90 ∨ b &&& 0xF0 = 0xA0 ∨ b &&& 0xF0 = 0xB0
      · match rest with
        | [] => simp [cleanScan_cons, hF, h3] at h
        | [d1] => simp [cleanScan_cons, hF, h3] at h
        | d1 :: d2 :: rest2 =>
          have h' : (tuning.get? (b &&& 15)).isSome = true ∧ cleanScan tuning rest2 = true := by
            simpa [cleanScan_cons, hF, h3] using h
          obtain ⟨t, ht⟩ := Option.isSome_iff_exists.mp h'.1
          have ht' : tuning[b &&& 15]? = some t := by
            rw [← List.get?_eq_getElem?]; exact ht
          have ih := decodeLoop_append tuning rest2 ys h'.2
          simp [decodeLoop_cons, hF, h3, ht, ht', ih]
      · by_cases h2 : b &&& 0xF0 = 0xC0 ∨ b &&& 0xF0 = 0xD0
        · match rest with
          | [] => simp [cleanScan_cons, hF, h3, h2] at h
          | d1 :: rest1 =>
            have h' : cleanScan tuning rest1 = true := by
              simpa [cleanScan_cons, hF, h3, h2] using h
            have ih := decodeLoop_append tuning rest1 ys h'
            simp [decodeLoop_cons, hF, h3, h2, ih]
        · have h' : cleanScan tuning rest = true := by
            simpa [cleanScan_cons, hF, h3, h2] using h
          have ih := decodeLoop_append tuning rest ys h'
          simp [decodeLoop_cons, hF, h3, h2, ih]

/-- C6: for every buffer whose scanned region is a cleanly decoded prefix
followed by a recognized 3-byte command with fewer than 2 data bytes left,
the decode stops at the truncated command and returns exactly the events
of the prefix; the function is total, so nothing is raised. -/
theorem C6_truncated_command_stops_decoding (tuning : List Int) (h1 h2 : Nat)
    (xs : List Nat) (b : Nat) (r : List Nat)
    (hclean : cleanScan tuning xs = true)
    (hcmd : b &&& 0xF0 = 0x80 ∨ b &&& 0xF0 = 0x90 ∨ b &&& 0xF0 = 0xA0 ∨ b &&& 0xF0 = 0xB0)
    (hlen : r.length < 2) :
    midi_callback tuning (h1 :: h2 :: (xs ++ b :: r)) = decodeLoop tuning xs := by
  have hnotF : ¬ b &&& 0xF0 = 0xF0 := by rcases hcmd with h | h | h | h <;> omega
  have htail : decodeLoop tuning (b :: r) = [] := by
    match r with
    | [] => simp [decodeLoop_cons, hnotF, hcmd]
    | [d1] => simp [decodeLoop_cons, hnotF, hcmd]
    | d1 :: d2 :: rr => simp [List.length_cons] at hlen; omega
  have hL : ¬ (h1 :: h2 :: (xs ++ b :: r)).length < 3 := by
    simp only [List.length_cons, List.length_append]
    omega
  simp only [midi_callback]
  rw [if_neg hL]
  simp only [List.drop_succ_cons, List.drop_zero]
  rw [decodeLoop_append tuning xs (b :: r) hclean, htail, List.append_nil]

/-- Witness for C6: a complete Note-On message followed by a Note-Off
status with a single data byte decodes to the prefix's Strike alone. -/
theorem C6_witness :
    midi_callback STANDARD_TUNING (0 :: 0 :: ([0x92, 60, 100] ++ 0x82 :: [60])) =
      decodeLoop STANDARD_TUNING [0x92, 60, 100] ∧
    decodeLoop STANDARD_TUNING [0x92, 60, 100] = [GuitarEvent.strike 3 10] :=
  ⟨C6_truncated_command_stops_decoding STANDARD_TUNING 0 0 [0x92, 60, 100] 0x82 [60]
      (by decide) (by decide) (by decide),
   by decide⟩

/-- C10: the decode callback is a total function (all Python exception
paths are caught inside it), and when a recognized 3-byte command carries
a channel nibble above 5 the standard-tuning lookup fails, so the scan is
abandoned at that command: the events of the clean prefix are delivered
and everything after the failing message in the same buffer - here the
arbitrary remainder r - is silently dropped. -/
theorem C10_bad_nibble_aborts_scan (h1 h2 : Nat) (xs : List Nat) (b : Nat) (r : List Nat)
    (hclean : cleanScan STANDARD_TUNING xs = true)
    (hcmd : b &&& 0xF0 = 0x80 ∨ b &&& 0xF0 = 0x90 ∨ b &&& 0xF0 = 0xA0 ∨ b &&& 0xF0 = 0xB0)
    (hnib : 5 < b &&& 0x0F) :
    midi_callback STANDARD_TUNING (h1 :: h2 :: (xs ++ b :: r)) =
      decodeLoop STANDARD_TUNING xs := by
  have hnotF : ¬ b &&& 0xF0 = 0xF0 := by rcases hcmd with h | h | h | h <;> omega
  have hnone : STANDARD_TUNING.get? (b &&& 0x0F) = none := by
    apply List.get?_eq_none.mpr
    simp only [STANDARD_TUNING, List.length_cons, List.length_nil]
    omega
  have hnone2 : STANDARD_TUNING[b &&& 0x0F]? = none := by
    rw [← List.get?_eq_getElem?]
    exact hnone
  have htail : decodeLoop STANDARD_TUNING (b :: r) = [] := by
    match r with
    | [] => simp [decodeLoop_cons, hnotF, hcmd]
    | [d1] => simp [decodeLoop_cons, hnotF, hcmd]
    | d1 :: d2 :: rr => simp [decodeLoop_cons, hnotF, hcmd, hnone, hnone2]
  have hL : ¬ (h1 :: h2 :: (xs ++ b :: r)).length < 3 := by
    simp only [List.length_cons, List.length_append]
    omega
  simp only [midi_callback]
  rw [if_neg hL]
  simp only [List.drop_succ_cons, List.drop_zero]
  rw [decodeLoop_append STANDARD_TUNING xs (b :: r) hclean, htail, List.append_nil]

/-- Witness for C10: a Note-On on nibble 6 (string index beyond the
6-entry tuning table) kills the scan; the complete, valid Note-On message
that follows it in the same buffer is dropped, and only the clean
prefix's Strike is delivered. -/
theorem C10_witness :
    midi_callback STANDARD_TUNING
        (0 :: 0 :: ([0x92, 60, 100] ++ 0x96 :: [60, 100, 0x92, 60, 100])) =
      decodeLoop STANDARD_TUNING [0x92, 60, 100] ∧
    decodeLoop STANDARD_TUNING [0x92, 60, 100] = [GuitarEvent.strike 3 10] :=
  ⟨C10_bad_nibble_aborts_scan 0 0 [0x92, 60, 100] 0x96 [60, 100, 0x92, 60, 100]
      (by decide) (by decide) (by decide),
   by decide⟩

/-- Witness for C7 at the fresh state with an empty expected-string list. -/
theorem C7_witness :
    ChordVerifier.verify none [] (GuitarState.init 6) =
      Except.ok (VerifyResult.bool false) ∧
    ChordVerifier.verify (some []) [] (GuitarState.init 6) =
      Except.ok (VerifyResult.bool false) :=
  C7_amended (GuitarState.init 6) []
